import Mathlib

/-!
Shallow embedding of `src/glot_run/run.rs` from glotcode/glot-run: a client
for a remote run-code HTTP service.  Pure data is translated directly; the
serde JSON codec is modelled by an explicit `Json` value type together with
encode/decode functions following the derived serde semantics (struct fields
in declaration order, `Option` encoded as `null`, unknown fields ignored,
missing or ill-typed fields a deserialization error); the ureq HTTP transport
is modelled by a stream of `Response` values consumed one per network call,
with the issued requests recorded in the result so that call counts and
request contents are observable.
-/

namespace GlotRun

/-- Model of a JSON value, as produced and consumed by serde_json. -/
inductive Json where
  | null : Json
  | str : String → Json
  | num : Int → Json
  | arr : List Json → Json
  | obj : List (String × Json) → Json
deriving Repr

/-- Model of serde_json string encoding: quotes, with the two escapes
that matter for byte-level determinism of well-formed fields. -/
def jsonEscapeChar (c : Char) : String :=
  if c == '"' then "\\\""
  else if c == '\\' then "\\\\"
  else String.singleton c

def jsonRenderString (s : String) : String :=
  "\"" ++ String.join (s.data.map jsonEscapeChar) ++ "\""

mutual

/-- Model of serde_json byte output (as a Lean `String`). -/
def Json.render : Json → String
  | .null => "null"
  | .str s => jsonRenderString s
  | .num n => toString n
  | .arr xs => "[" ++ Json.renderList xs ++ "]"
  | .obj fs => "\x7b" ++ Json.renderFields fs ++ "\x7d"

def Json.renderList : List Json → String
  | [] => ""
  | [x] => Json.render x
  | x :: y :: xs => Json.render x ++ "," ++ Json.renderList (y :: xs)

def Json.renderFields : List (String × Json) → String
  | [] => ""
  | [(k, v)] => jsonRenderString k ++ ":" ++ Json.render v
  | (k, v) :: f :: fs =>
      jsonRenderString k ++ ":" ++ Json.render v ++ "," ++ Json.renderFields (f :: fs)

end

/-- First binding of a key in a JSON object field list. -/
def lookupField : List (String × Json) → String → Option Json
  | [], _ => none
  | (k, v) :: fs, key => if k = key then some v else lookupField fs key

/-- Field access on a JSON value: only objects have fields. -/
def Json.getField : Json → String → Option Json
  | .obj fs, key => lookupField fs key
  | _, _ => none

/-- serde: a required `String` field must be present and be a JSON string. -/
def getStringField (j : Json) (key : String) : Except String String :=
  match j.getField key with
  | some (.str s) => .ok s
  | some _ => .error ("invalid type for field " ++ key)
  | none => .error ("missing field " ++ key)

/-! ## Data model (from `run.rs`) -/

structure File where
  name : String
  content : String
deriving Repr, DecidableEq

structure RunRequestPayload where
  language : String
  files : List File
  stdin : Option String
  command : Option String
deriving Repr, DecidableEq

structure RunRequest where
  image : String
  payload : RunRequestPayload
deriving Repr, DecidableEq

structure RunResult where
  stdout : String
  stderr : String
  error : String
deriving Repr, DecidableEq

structure Config where
  base_url : String
  access_token : String
deriving Repr, DecidableEq

/-- Rust `str::trim_end_matches(c)`: remove every trailing occurrence of `c`. -/
def trim_end_matches_char (c : Char) (s : String) : String :=
  ⟨(s.data.reverse.dropWhile (fun a => a == c)).reverse⟩

/-- `Config::run_url`: `format!("{}/run", self.base_url.trim_end_matches('/'))`. -/
def Config.run_url (config : Config) : String :=
  trim_end_matches_char '/' config.base_url ++ "/run"

/-! ## serde Serialize (derived, fields in declaration order, `None` ↦ `null`) -/

def File.toJson (f : File) : Json :=
  .obj [("name", .str f.name), ("content", .str f.content)]

def optionStringToJson : Option String → Json
  | none => .null
  | some s => .str s

def RunRequestPayload.toJson (p : RunRequestPayload) : Json :=
  .obj [("language", .str p.language),
        ("files", .arr (p.files.map File.toJson)),
        ("stdin", optionStringToJson p.stdin),
        ("command", optionStringToJson p.command)]

def RunRequest.toJson (r : RunRequest) : Json :=
  .obj [("image", .str r.image), ("payload", r.payload.toJson)]

/-- `serde_json::to_vec(&run_request)`.  For these string-only derived types
the encoder cannot fail, so the model is total; the `SerializeRequest`
variant therefore never arises in the embedding. -/
def serde_json_to_vec (r : RunRequest) : String :=
  Json.render r.toJson

/-! ## serde Deserialize -/

/-- Derived `Deserialize` for `RunResult`: all three string fields required,
unknown fields ignored. -/
def deserialize_run_result (j : Json) : Except String RunResult := do
  let stdout ← getStringField j "stdout"
  let stderr ← getStringField j "stderr"
  let error ← getStringField j "error"
  .ok ⟨stdout, stderr, error⟩

/-- Modelled from the spec: `api::ErrorBody` is defined outside this source
fragment; the spec says it carries at least a string field `message`. -/
structure ErrorBody where
  message : String
deriving Repr, DecidableEq

/-- Modelled from the spec: `api::ErrorResponse` is defined outside this
source fragment; the spec gives it the shape
`status_code: integer, body: ErrorBody`. -/
structure ErrorResponse where
  status_code : Nat
  body : ErrorBody
deriving Repr, DecidableEq

/-- Modelled from the spec: deserialization of the external `api::ErrorBody`
shape; a required string field `message`, unknown fields ignored. -/
def deserialize_error_body (j : Json) : Except String ErrorBody := do
  let message ← getStringField j "message"
  .ok ⟨message⟩

/-! ## Transport model (ureq) -/

/-- Model of `ureq::Error`; only its display text is observable here. -/
structure UreqError where
  message : String
deriving Repr, DecidableEq

/-- Model of `ureq::Response`: HTTP status, whether the response is a
synthetic one manufactured by the transport for a responseless failure, the
underlying cause of a synthetic response when the transport exposes one, and
the body (already parsed as a JSON value; a body that does not match the
expected shape makes `into_json_deserialize` fail). -/
structure Response where
  status : Nat
  synthetic : Bool
  synthetic_error : Option UreqError
  body : Json

/-- `ureq::Response::ok()`: status in the 2xx range. -/
def Response.ok (r : Response) : Bool :=
  200 ≤ r.status && r.status ≤ 299

/-! ## Error enum (from `run.rs`; `io::Error` and `serde_json::Error`
payloads are modelled by their message strings) -/

inductive Error where
  | SerializeRequest (err : String)
  | Request (err : UreqError)
  | DeserializeResponse (err : String)
  | DeserializeErrorResponse (err : String)
  | EmptySynthetic
  | ResponseNotOk (err : ErrorResponse)
deriving Repr, DecidableEq

/-- `impl fmt::Display for Error` from `run.rs`, rendered to a string. -/
def Error.display : Error → String
  | .SerializeRequest err => "Failed to serialize request body: " ++ err
  | .Request err => "Request error: " ++ err.message
  | .DeserializeResponse err => "Failed to deserialize response body: " ++ err
  | .DeserializeErrorResponse err => "Failed to deserialize error response body: " ++ err
  | .EmptySynthetic => "Expected synthetic error, but there was none (programming error)"
  | .ResponseNotOk err => "Response not ok: " ++ err.body.message

/-- `check_response` from `run.rs`. -/
def check_response (response : Response) : Except Error Response :=
  if !response.ok then
    if response.synthetic then
      match response.synthetic_error with
      | none => .error .EmptySynthetic
      | some err => .error (.Request err)
    else
      let status_code := response.status
      match deserialize_error_body response.body with
      | .error e => .error (.DeserializeErrorResponse e)
      | .ok error_body => .error (.ResponseNotOk ⟨status_code, error_body⟩)
  else
    .ok response

/-! ## run, with the transport made explicit -/

/-- The outbound HTTP request as assembled by the ureq builder chain in
`run`: method, URL, headers set with `.set`, timeout, body bytes. -/
structure HttpRequest where
  method : String
  url : String
  headers : List (String × String)
  timeout_secs : Nat
  body : String
deriving Repr, DecidableEq

/-- Result of `run` together with the trace of network requests issued. -/
structure RunOutcome where
  result : Except Error RunResult
  requests : List HttpRequest

/-- One network send: consumes the next response of the stream and records
the issued request. -/
def send_bytes (stream : Nat → Response) (issued : List HttpRequest)
    (request : HttpRequest) : Response × List HttpRequest :=
  (stream issued.length, issued ++ [request])

/-- `run` from `run.rs`.  `stream` is the environment: the responses the
transport would hand back on the successive network calls of this
invocation.  The returned trace lists every request actually sent. -/
def run (config : Config) (run_request : RunRequest) (stream : Nat → Response) :
    RunOutcome :=
  let body := serde_json_to_vec run_request
  let request : HttpRequest :=
    ⟨"POST", config.run_url,
      [("X-Access-Token", config.access_token),
       ("Content-Type", "application/json")],
      300, body⟩
  let sent := send_bytes stream [] request
  let issued := sent.2
  match check_response sent.1 with
  | .error e => ⟨.error e, issued⟩
  | .ok resp =>
      match deserialize_run_result resp.body with
      | .error e => ⟨.error (.DeserializeResponse e), issued⟩
      | .ok run_result => ⟨.ok run_result, issued⟩

/-! ## Concrete values used by witnesses -/

def cfgW : Config := ⟨"http://x", "tok"⟩

def reqW : RunRequest :=
  ⟨"glot/python", ⟨"python", [⟨"main.py", "print(1)"⟩], none, none⟩⟩

def reqW2 : RunRequest :=
  ⟨"glot/python", ⟨"python", [⟨"main.py", "print(1)"⟩], none, none⟩⟩

def resp400 : Response :=
  ⟨400, false, none, .obj [("message", .str "bad language")]⟩

def resp200 : Response :=
  ⟨200, false, none,
    .obj [("stdout", .str "a"), ("stderr", .str ""), ("error", .str "")]⟩

def respSyn : Response :=
  ⟨500, true, some ⟨"connection refused"⟩, .null⟩

/-! ## Helper lemmas -/

/-- Whether a string has a trailing slash character. -/
def ends_with_slash (s : String) : Bool :=
  s.data.getLast?.any (fun c => c == '/')

theorem ends_with_slash_trim_end (s : String) :
    ends_with_slash (trim_end_matches_char '/' s) = false := by
  show ((s.data.reverse.dropWhile (fun a => a == '/')).reverse.getLast?.any
      (fun c => c == '/')) = false
  rw [List.getLast?_reverse]
  have h := List.head?_dropWhile_not (fun a => a == '/') s.data.reverse
  revert h
  cases (s.data.reverse.dropWhile (fun a => a == '/')).head? with
  | none => intro _; rfl
  | some c => intro h; simpa using h

/-- `run` with a constant response stream, reduced past the transport. -/
theorem run_result_eq (config : Config) (run_request : RunRequest)
    (response : Response) :
    (run config run_request (fun _ => response)).result =
      match check_response response with
      | .error e => .error e
      | .ok resp =>
          match deserialize_run_result resp.body with
          | .error e => .error (.DeserializeResponse e)
          | .ok run_result => .ok run_result := by
  cases hc : check_response response with
  | error e => simp [run, send_bytes, hc]
  | ok resp =>
      cases hd : deserialize_run_result resp.body with
      | error e => simp [run, send_bytes, hc, hd]
      | ok r => simp [run, send_bytes, hc, hd]

/-! ## Claim theorems -/

/-- Claim C1: for every HTTP response with a non-success status (and not a
synthetic transport failure), `run` tries to deserialize the body as
`ErrorBody`; on success it returns `ResponseNotOk` carrying the HTTP status
code and the deserialized body, and on deserialization failure it returns
`DeserializeErrorResponse`. -/
theorem claim_c1 (config : Config) (run_request : RunRequest)
    (response : Response) (hok : response.ok = false)
    (hsyn : response.synthetic = false) :
    (∀ b, deserialize_error_body response.body = .ok b →
      (run config run_request (fun _ => response)).result =
        .error (.ResponseNotOk ⟨response.status, b⟩)) ∧
    (∀ e, deserialize_error_body response.body = .error e →
      (run config run_request (fun _ => response)).result =
        .error (.DeserializeErrorResponse e)) := by
  constructor
  · intro b hb
    rw [run_result_eq]
    simp [check_response, hok, hsyn, hb]
  · intro e he
    rw [run_result_eq]
    simp [check_response, hok, hsyn, he]

/-- Witness for C1 at the spec example: status 400 with body
`message: bad language` yields `ResponseNotOk` with status 400 and that
message. -/
theorem claim_c1_witness :
    (run cfgW reqW (fun _ => resp400)).result =
      .error (.ResponseNotOk ⟨400, ⟨"bad language"⟩⟩) :=
  (claim_c1 cfgW reqW resp400 rfl rfl).1 ⟨"bad language"⟩ rfl

/-- Claim C2: for every HTTP response with a success status, `run` tries to
deserialize the body as `RunResult`; on success it returns exactly that
`RunResult`, and on deserialization failure it returns the error
`DeserializeResponse` (the model is a total function, so no panic and no
default value). -/
theorem claim_c2 (config : Config) (run_request : RunRequest)
    (response : Response) (hok : response.ok = true) :
    (∀ r, deserialize_run_result response.body = .ok r →
      (run config run_request (fun _ => response)).result = .ok r) ∧
    (∀ e, deserialize_run_result response.body = .error e →
      (run config run_request (fun _ => response)).result =
        .error (.DeserializeResponse e)) := by
  constructor
  · intro r hr
    rw [run_result_eq]
    simp [check_response, hok, hr]
  · intro e he
    rw [run_result_eq]
    simp [check_response, hok, he]

/-- Witness for C2 at the spec example: status 200 with body
`stdout: "a", stderr: "", error: ""` yields that `RunResult`. -/
theorem claim_c2_witness :
    (run cfgW reqW (fun _ => resp200)).result = .ok ⟨"a", "", ""⟩ :=
  (claim_c2 cfgW reqW resp200 rfl).1 ⟨"a", "", ""⟩ rfl

/-- Claim C3: the derived run URL is `base_url` with trailing slashes
trimmed followed by `/run`, the trimmed prefix never ends in a slash (so no
double slash at the junction), and both `http://x` and `http://x/` derive
`http://x/run`. -/
theorem claim_c3 :
    (∀ config : Config,
      config.run_url = trim_end_matches_char '/' config.base_url ++ "/run" ∧
      ends_with_slash (trim_end_matches_char '/' config.base_url) = false) ∧
    Config.run_url ⟨"http://x", "t"⟩ = "http://x/run" ∧
    Config.run_url ⟨"http://x/", "t"⟩ = "http://x/run" :=
  ⟨fun config => ⟨rfl, ends_with_slash_trim_end config.base_url⟩,
   by decide, by decide⟩

/-- Claim C4: on a synthetic (responseless) transport failure, `run`
returns `Request` wrapping the underlying error when one is exposed and
`EmptySynthetic` when none is; no other outcome is possible on that
branch. -/
theorem claim_c4 (config : Config) (run_request : RunRequest)
    (response : Response) (hok : response.ok = false)
    (hsyn : response.synthetic = true) :
    (∀ e, response.synthetic_error = some e →
      (run config run_request (fun _ => response)).result =
        .error (.Request e)) ∧
    (response.synthetic_error = none →
      (run config run_request (fun _ => response)).result =
        .error .EmptySynthetic) ∧
    ((∃ e, (run config run_request (fun _ => response)).result =
        .error (.Request e)) ∨
      (run config run_request (fun _ => response)).result =
        .error .EmptySynthetic) := by
  refine ⟨?_, ?_, ?_⟩
  · intro e he
    rw [run_result_eq]
    simp [check_response, hok, hsyn, he]
  · intro hn
    rw [run_result_eq]
    simp [check_response, hok, hsyn, hn]
  · cases he : response.synthetic_error with
    | none =>
        right
        rw [run_result_eq]
        simp [check_response, hok, hsyn, he]
    | some e =>
        left
        refine ⟨e, ?_⟩
        rw [run_result_eq]
        simp [check_response, hok, hsyn, he]

/-- Witness for C4: a synthetic failure exposing a connection-refused cause
yields `Request` with that cause. -/
theorem claim_c4_witness :
    (run cfgW reqW (fun _ => respSyn)).result =
      .error (.Request ⟨"connection refused"⟩) :=
  (claim_c4 cfgW reqW respSyn rfl rfl).1 ⟨"connection refused"⟩ rfl

/-- Claim C5: the serialized request has the shape
`image, payload(language, files, stdin, command)`; an absent `stdin` or
`command` is serialized as JSON `null`, which is distinct from the empty
string; a request with an empty files sequence still serializes, with a
present empty `files` array. -/
theorem claim_c5 (r : RunRequest) :
    r.toJson = Json.obj [("image", Json.str r.image),
      ("payload", Json.obj [("language", Json.str r.payload.language),
        ("files", Json.arr (r.payload.files.map File.toJson)),
        ("stdin", optionStringToJson r.payload.stdin),
        ("command", optionStringToJson r.payload.command)])] ∧
    (r.payload.stdin = none →
      Json.getField r.payload.toJson "stdin" = some Json.null) ∧
    (r.payload.command = none →
      Json.getField r.payload.toJson "command" = some Json.null) ∧
    (∀ s : String, Json.null ≠ Json.str s) ∧
    (r.payload.files = [] →
      Json.getField r.payload.toJson "files" = some (Json.arr [])) := by
  refine ⟨rfl, ?_, ?_, fun s h => Json.noConfusion h, ?_⟩ <;> intro h <;>
    simp [RunRequestPayload.toJson, Json.getField, lookupField,
      optionStringToJson, h]

/-- Witness for C5 at a concrete payload with no stdin, no command and no
files. -/
theorem claim_c5_witness :
    Json.getField (RunRequestPayload.toJson ⟨"python", [], none, none⟩)
        "stdin" = some Json.null ∧
    Json.getField (RunRequestPayload.toJson ⟨"python", [], none, none⟩)
        "command" = some Json.null ∧
    Json.getField (RunRequestPayload.toJson ⟨"python", [], none, none⟩)
        "files" = some (Json.arr []) :=
  ⟨(claim_c5 ⟨"img", ⟨"python", [], none, none⟩⟩).2.1 rfl,
   (claim_c5 ⟨"img", ⟨"python", [], none, none⟩⟩).2.2.1 rfl,
   (claim_c5 ⟨"img", ⟨"python", [], none, none⟩⟩).2.2.2.2 rfl⟩

/-- Claim C6: every invocation of `run` issues exactly one HTTP request: a
POST to the derived run URL with the `X-Access-Token` and `Content-Type`
headers, a 300 second timeout and the serialized JSON body. -/
theorem claim_c6 (config : Config) (run_request : RunRequest)
    (stream : Nat → Response) :
    (run config run_request stream).requests =
      [⟨"POST", config.run_url,
        [("X-Access-Token", config.access_token),
         ("Content-Type", "application/json")],
        300, serde_json_to_vec run_request⟩] := by
  cases hc : check_response (stream 0) with
  | error e => simp [run, send_bytes, hc]
  | ok resp =>
      cases hd : deserialize_run_result resp.body with
      | error e => simp [run, send_bytes, hc, hd]
      | ok r => simp [run, send_bytes, hc, hd]

/-- Claim C7: `run` makes exactly one network attempt per invocation and
never retries: its whole outcome depends only on the first response of the
transport stream, and the request trace has length one. -/
theorem claim_c7 (config : Config) (run_request : RunRequest)
    (stream stream' : Nat → Response) (h : stream 0 = stream' 0) :
    (run config run_request stream).requests.length = 1 ∧
    run config run_request stream = run config run_request stream' := by
  constructor
  · cases hc : check_response (stream 0) with
    | error e => simp [run, send_bytes, hc]
    | ok resp =>
        cases hd : deserialize_run_result resp.body with
        | error e => simp [run, send_bytes, hc, hd]
        | ok r => simp [run, send_bytes, hc, hd]
  · unfold run send_bytes
    simp only [List.length_nil, h]

/-- Witness for C7: one request is issued on a concrete success exchange. -/
theorem claim_c7_witness :
    (run cfgW reqW (fun _ => resp200)).requests.length = 1 :=
  (claim_c7 cfgW reqW (fun _ => resp200) (fun _ => resp200) rfl).1

/-- Claim C8: `Config.run_url` is total with no non-emptiness precondition:
a `base_url` consisting only of slashes (or empty) yields `/run`, and all
trailing slashes are trimmed, so `http://x///` yields `http://x/run`. -/
theorem claim_c8 :
    (∀ config : Config, (∀ c ∈ config.base_url.data, c = '/') →
      config.run_url = "/run") ∧
    Config.run_url ⟨"", "t"⟩ = "/run" ∧
    Config.run_url ⟨"http://x///", "t"⟩ = "http://x/run" := by
  refine ⟨fun config h => ?_, by decide, by decide⟩
  unfold Config.run_url trim_end_matches_char
  have hnil : config.base_url.data.reverse.dropWhile (fun a => a == '/')
      = [] := by
    rw [List.dropWhile_eq_nil_iff]
    intro x hx
    have hx2 := h x (List.mem_reverse.mp hx)
    simp [hx2]
  rw [hnil]
  rfl

/-- Witness for C8 at the all-slash base URL `///`. -/
theorem claim_c8_witness : Config.run_url ⟨"///", "t"⟩ = "/run" :=
  claim_c8.1 ⟨"///", "t"⟩ (by decide)

/-- Claim C9: the display rendering of `ResponseNotOk` is exactly
`Response not ok: ` followed by the service-reported message, and it does
not depend on the numeric status code even though the status code is
carried in the error value. -/
theorem claim_c9 (e : ErrorResponse) :
    Error.display (.ResponseNotOk e) = "Response not ok: " ++ e.body.message ∧
    ∀ sc : Nat, Error.display (.ResponseNotOk ⟨sc, e.body⟩) =
      Error.display (.ResponseNotOk e) :=
  ⟨rfl, fun _ => rfl⟩

/-- Claim C10: serialization is deterministic — field-for-field equal
requests serialize to identical bytes — and the `files` JSON array lists
the file entries in exactly the input order. -/
theorem claim_c10 (r1 r2 : RunRequest)
    (h1 : r1.image = r2.image)
    (h2 : r1.payload.language = r2.payload.language)
    (h3 : r1.payload.files = r2.payload.files)
    (h4 : r1.payload.stdin = r2.payload.stdin)
    (h5 : r1.payload.command = r2.payload.command) :
    serde_json_to_vec r1 = serde_json_to_vec r2 ∧
    Json.getField r1.payload.toJson "files"
      = some (Json.arr (r1.payload.files.map File.toJson)) ∧
    ∀ i : Nat, (r1.payload.files.map File.toJson)[i]?
      = Option.map File.toJson r1.payload.files[i]? := by
  have heq : r1 = r2 := by
    cases r1 with
    | mk i1 p1 =>
        cases r2 with
        | mk i2 p2 =>
            cases p1
            cases p2
            simp_all
  refine ⟨by rw [heq], ?_, fun i => List.getElem?_map File.toJson r1.payload.files i⟩
  simp [RunRequestPayload.toJson, Json.getField, lookupField]

/-- Witness for C10 at two separately written, field-for-field equal
requests. -/
theorem claim_c10_witness :
    serde_json_to_vec reqW = serde_json_to_vec reqW2 :=
  (claim_c10 reqW reqW2 rfl rfl rfl rfl rfl).1

end GlotRun
